import Mathlib

/-!
Shallow embedding of `src/transcribr/transcribr.py` (class `Transcribr`).

External collaborators (the ffmpeg prober/decoder and the whisper
recognizer) are modelled by an explicit environment of oracle functions.
Python exceptions are modelled by an explicit error type; Python `None`
returns are modelled by `Option`.  Machine floats are modelled by `ℚ`
(the `timedelta` value is taken exactly, ignoring microsecond rounding).
The filesystem side effects (`os.makedirs`, file writes) are modelled by
an explicit record of created directories and written files.
-/

/-- Python exception kinds that can surface from the code under study. -/
inductive Err where
  | assertionError (msg : String)
  | valueError (msg : String)
  | indexError
  | typeError
  | fileNotFoundError
  | fileExistsError
  | ffmpegError (msg : String)
  | externalError (msg : String)
deriving DecidableEq

/-- One stream descriptor returned by `ffmpeg.probe` (just its `codec_type`). -/
structure MediaStream where
  codec_type : String
deriving DecidableEq

/-- One time-aligned segment of a transcription.  `stop` embeds the Python
key `"end"` (a Lean keyword). -/
structure Segment where
  start : ℚ
  stop : ℚ
  text : String
deriving DecidableEq

/-- The transcription dict returned by the recognizer: keys `"text"` and
`"segments"`. -/
structure Transcription where
  text : String
  segments : List Segment
deriving DecidableEq

/-- The mutable fields of a `Transcribr` instance: `self.transcription`
and `self.file_path`, both `None` after `__init__`. -/
structure Session where
  transcription : Option Transcription
  file_path : Option String
deriving DecidableEq

/-- Filesystem state touched by the code: directories created by
`os.makedirs` and files written (`open(..., "w")`); a write prepends, so a
lookup that takes the first match sees the latest content. -/
structure FS where
  dirs : List String
  files : List (String × String)
deriving DecidableEq

/-- Environment of external collaborators: `os.path.exists`,
`ffmpeg.probe` filtered to video streams (`select_streams="v"`),
`ffmpeg.probe` filtered to audio streams (`select_streams="a"`), the
ffmpeg extraction run (input path, output path), and the whisper model.
An `Except.error` models the external tool raising. -/
structure Env where
  pathExists : String → Bool
  probeVideo : String → Except String (List MediaStream)
  probeAudio : String → Except String (List MediaStream)
  runFfmpeg : String → String → Except String Unit
  recognize : String → Except String Transcription

/-- Python `str.rfind` for a single character, on the char list of the
string: index of the last occurrence, `-1` if absent. -/
def pyRfind (c : Char) : List Char → Int
  | [] => -1
  | x :: xs =>
    let r := pyRfind c xs
    if 0 ≤ r then r + 1 else if x = c then 0 else -1

/-- `os.path.splitext` (posix): split at the last dot if it lies strictly
after the last separator and the characters between separator and dot are
not all dots (CPython scans that span and splits at the first non-dot;
equivalently, a basename consisting only of leading dots has no
extension). -/
def splitext (p : String) : String × String :=
  let l := p.data
  let sepIndex := pyRfind '/' l
  let dotIndex := pyRfind '.' l
  if sepIndex < dotIndex then
    let leading := (l.drop (sepIndex + 1).toNat).take (dotIndex - (sepIndex + 1)).toNat
    if leading.all (fun c => c = '.') then (p, "")
    else (⟨l.take dotIndex.toNat⟩, ⟨l.drop dotIndex.toNat⟩)
  else (p, "")

/-- `os.path.split` (posix): split after the last separator; the head
keeps its trailing separators only when it consists entirely of
separators. -/
def splitPath (p : String) : String × String :=
  let l := p.data
  let i := (pyRfind '/' l + 1).toNat
  let head := l.take i
  let tail := l.drop i
  let head2 :=
    if head ≠ [] ∧ ¬ head.all (fun c => c = '/') then
      (head.reverse.dropWhile (fun c => c = '/')).reverse
    else head
  (⟨head2⟩, ⟨tail⟩)

/-- `os.makedirs(dir, exist_ok=ok)`: fails on the empty path
(`FileNotFoundError`), fails on an existing directory only when
`exist_ok` is false (`FileExistsError`), otherwise records the
directory. -/
def makedirs (dir : String) (exist_ok : Bool) (fs : FS) : Except Err FS :=
  if dir = "" then .error .fileNotFoundError
  else if fs.dirs.contains dir && !exist_ok then .error .fileExistsError
  else .ok { fs with dirs := if fs.dirs.contains dir then fs.dirs else dir :: fs.dirs }

/-- `open(path, "w").write(content)`: record the written file. -/
def writeFile (path content : String) (fs : FS) : FS :=
  { fs with files := (path, content) :: fs.files }

/-- `Transcribr.output_file(self, file_path, output_file, extension)`.
`file_path` is `self.file_path`, an `Option` because it is `None` until a
transcription succeeds; `os.path.splitext(None)` raises `TypeError`.
Returns the new filesystem state and the resolved path (or the raised
error, with the filesystem unchanged). -/
def output_file (file_path : Option String) (requested : Option String)
    (extension : String) (fs : FS) : FS × Except Err String :=
  match requested with
  | none =>
    match file_path with
    | none => (fs, .error .typeError)
    | some fp => (fs, .ok ((splitext fp).1 ++ extension))
  | some o =>
    let d0 := (splitPath o).1
    let dirOrErr : Except Err String :=
      if d0 = "" then
        match file_path with
        | none => .error .typeError
        | some fp => .ok (splitext fp).1
      else .ok d0
    match dirOrErr with
    | .error e => (fs, .error e)
    | .ok d =>
      match makedirs d true fs with
      | .error e => (fs, .error e)
      | .ok fs2 => (fs2, .ok o)

/-- `Transcribr.is_video_file`.  The `try` block covers the whole probe
and subscript: an empty video-stream list raises `IndexError` from
`["streams"][0]`, which is caught and returns `False`; an `ffmpeg.Error`
from the probe is not an `IndexError` and propagates; and when the first
stream is present but its `codec_type` is not `"video"`, control falls
off the end of the function and Python returns `None` (`Option.none`
here, `some true` / `some false` being the explicit returns). -/
def is_video_file (env : Env) (file_path : String) : Except Err (Option Bool) :=
  match env.probeVideo file_path with
  | .error e => .error (.ffmpegError e)
  | .ok streams =>
    match streams with
    | [] => .ok (some false)
    | metadata :: _ =>
      if metadata.codec_type = "video" then .ok (some true)
      else .ok none

/-- `Transcribr.is_audio_file`.  No `try` here: an empty audio-stream
list makes `["streams"][0]` raise an uncaught `IndexError`. -/
def is_audio_file (env : Env) (file_path : String) : Except Err Bool :=
  match env.probeAudio file_path with
  | .error e => .error (.ffmpegError e)
  | .ok [] => .error .indexError
  | .ok (metadata :: _) => .ok (metadata.codec_type = "audio")

/-- `Transcribr.extract_audio_from_video` (the Python default for
`audio_path` is `"temp_audio.wav"`, passed explicitly by the caller
here). -/
def extract_audio_from_video (env : Env) (video_path audio_path : String) :
    Except Err String :=
  match env.runFfmpeg video_path audio_path with
  | .error e => .error (.ffmpegError e)
  | .ok _ => .ok audio_path

/-- `Transcribr.extract_audio_from_file`.  `if self.is_video_file(...)`
tests Python truthiness: only `True` (`some true`) takes the video
branch; `False` and `None` are both falsy. -/
def extract_audio_from_file (env : Env) (file_path : String) : Except Err String :=
  match is_video_file env file_path with
  | .error e => .error e
  | .ok v =>
    if v = some true then extract_audio_from_video env file_path "temp_audio.wav"
    else
      match is_audio_file env file_path with
      | .error e => .error e
      | .ok true => .ok file_path
      | .ok false => .error (.valueError "Unsupported file type. Please provide a video or audio file.")

/-- `Transcribr.transcribe`.  The existence assert runs first (its Python
message wraps the path in single quotes, elided here); both session
fields are assigned only after the recognizer returns, so any raise
leaves the session as it was. -/
def transcribe (env : Env) (self : Session) (file_path : String) :
    Session × Except Err Unit :=
  if env.pathExists file_path then
    match extract_audio_from_file env file_path with
    | .error e => (self, .error e)
    | .ok audio_path =>
      match env.recognize audio_path with
      | .error e => (self, .error (.externalError e))
      | .ok tr => ({ transcription := some tr, file_path := some file_path }, .ok ())
  else (self, .error (.assertionError ("File " ++ file_path ++ " not found.")))

/-- Python `str.replace` specialised to a two-character needle: scan left
to right, replace non-overlapping occurrences of `p₁p₂` by `r₁r₂`. -/
def replaceTwo (p₁ p₂ r₁ r₂ : Char) : List Char → List Char
  | [] => []
  | [c] => [c]
  | c₁ :: c₂ :: rest =>
    if c₁ = p₁ ∧ c₂ = p₂ then r₁ :: r₂ :: replaceTwo p₁ p₂ r₁ r₂ rest
    else c₁ :: replaceTwo p₁ p₂ r₁ r₂ (c₂ :: rest)

/-- Line 82: `text.replace(". ", ".\n").replace("? ", "?\n").replace("! ", "!\n")`. -/
def save_transcription_text (t : String) : String :=
  ⟨replaceTwo '!' ' ' '!' '\n'
    (replaceTwo '?' ' ' '?' '\n'
      (replaceTwo '.' ' ' '.' '\n' t.data))⟩

/-- Python `int()` applied to a rational value: truncation toward zero. -/
def pyInt (q : ℚ) : ℤ := q.num.tdiv q.den

/-- Python zero-padded integer formatting `f"{n:0W}"` for a nonnegative
width `W` (for the nonnegative values arising here). -/
def pyFormatZeroPad (width : ℕ) (n : ℤ) : String :=
  let s := toString n
  ⟨List.replicate (width - s.data.length) '0' ++ s.data⟩

/-- `Transcribr.format_timedelta`.  `timedelta(seconds=s).total_seconds()`
is taken as `s` exactly; `//` and `%` are Python floor division and
floor modulus. -/
def format_timedelta (seconds : ℚ) : String :=
  let total_seconds := pyInt seconds
  let milliseconds := pyInt ((seconds - (total_seconds : ℚ)) * 1000)
  let hours := total_seconds.fdiv 3600
  let minutes := (total_seconds.fmod 3600).fdiv 60
  let secs := total_seconds.fmod 60
  pyFormatZeroPad 2 hours ++ ":" ++ pyFormatZeroPad 2 minutes ++ ":" ++
    pyFormatZeroPad 2 secs ++ "," ++ pyFormatZeroPad 3 milliseconds

/-- Python `str.strip()` on the common whitespace characters. -/
def pyStrip (s : String) : String :=
  ⟨((s.data.dropWhile Char.isWhitespace).reverse.dropWhile Char.isWhitespace).reverse⟩

/-- `Transcribr.generate_srt`: the `for i, segment in enumerate(...)`
loop accumulating `srt_content += f"{i + 1}\n{start} --> {end}\n{text}\n\n"`. -/
def generate_srt (transcription : Transcription) : String :=
  (transcription.segments.enum).foldl
    (fun srt_content p =>
      srt_content ++
        (toString (p.1 + 1) ++ "\n" ++ format_timedelta p.2.start ++ " --> " ++
          format_timedelta p.2.stop ++ "\n" ++ pyStrip p.2.text ++ "\n\n"))
    ""

/-- `Transcribr.save_transcription`: the availability check, then path
resolution, then the write of the line-broken text. -/
def save_transcription (self : Session) (requested : Option String) (fs : FS) :
    FS × Except Err Unit :=
  match self.transcription with
  | none => (fs, .error (.valueError "No transcription available. Please transcribe audio first."))
  | some tr =>
    match output_file self.file_path requested ".txt" fs with
    | (fs2, .error e) => (fs2, .error e)
    | (fs2, .ok out) => (writeFile out (save_transcription_text tr.text) fs2, .ok ())

/-- `Transcribr.save_subtitles`: the availability check, SRT generation,
path resolution, then `save_srt_file`. -/
def save_subtitles (self : Session) (requested : Option String) (fs : FS) :
    FS × Except Err Unit :=
  match self.transcription with
  | none => (fs, .error (.valueError "No transcription available. Please transcribe audio first."))
  | some tr =>
    let srt_content := generate_srt tr
    match output_file self.file_path requested ".srt" fs with
    | (fs2, .error e) => (fs2, .error e)
    | (fs2, .ok out) => (writeFile out srt_content fs2, .ok ())

/-! Spec-side definitions, written from the specification text, to be
compared with the embedded code. -/

/-- Spec-side simultaneous replacement: every occurrence of `". "`,
`"? "`, `"! "` becomes punctuation plus newline, in one left-to-right
pass over the text. -/
def simulBreaks : List Char → List Char
  | [] => []
  | [c] => [c]
  | c₁ :: c₂ :: rest =>
    if (c₁ = '.' ∨ c₁ = '?' ∨ c₁ = '!') ∧ c₂ = ' ' then
      c₁ :: '\n' :: simulBreaks rest
    else c₁ :: simulBreaks (c₂ :: rest)

/-- Spec-side SRT rendering: the concatenation over the segments, in
order, of the block for cue number `i`, numbering from the given start. -/
def srtSpecFrom (i : ℕ) : List Segment → String
  | [] => ""
  | seg :: rest =>
    toString i ++ "\n" ++ format_timedelta seg.start ++ " --> " ++
      format_timedelta seg.stop ++ "\n" ++ pyStrip seg.text ++ "\n\n" ++
      srtSpecFrom (i + 1) rest

/-- A string made of exactly two decimal digits. -/
def twoDigitStr (s : String) : Bool :=
  match s.data with
  | [a, b] => a.isDigit && b.isDigit
  | _ => false

/-- A string made of exactly three decimal digits. -/
def threeDigitStr (s : String) : Bool :=
  match s.data with
  | [a, b, c] => a.isDigit && b.isDigit && c.isDigit
  | _ => false

/-- The subtitle timestamp shape `\d\d:\d\d:\d\d,\d\d\d` claimed by the
specification. -/
def matchesSrtPattern (s : String) : Bool :=
  match s.data with
  | [h₁, h₂, c₁, m₁, m₂, c₂, s₁, s₂, c₃, d₁, d₂, d₃] =>
    h₁.isDigit && h₂.isDigit && (c₁ == ':') && m₁.isDigit && m₂.isDigit &&
      (c₂ == ':') && s₁.isDigit && s₂.isDigit && (c₃ == ',') &&
      d₁.isDigit && d₂.isDigit && d₃.isDigit
  | _ => false

/-! Concrete fixtures used by witnesses and counterexamples. -/

/-- An environment whose prober finds no stream of either kind. -/
def envNoStreams : Env :=
  { pathExists := fun _ => true
    probeVideo := fun _ => .ok []
    probeAudio := fun _ => .ok []
    runFfmpeg := fun _ _ => .ok ()
    recognize := fun _ => .error "recognizer unavailable" }

/-- An environment whose video-filtered probe reports a first stream that
is not of codec type video. -/
def envOddVideoProbe : Env :=
  { envNoStreams with probeVideo := fun _ => .ok [⟨"audio"⟩] }

/-- An environment in which no path exists. -/
def envNothingExists : Env :=
  { envNoStreams with pathExists := fun _ => false }

/-- A fresh session (`__init__` leaves both fields `None`). -/
def emptySession : Session := ⟨none, none⟩

/-- An empty filesystem record. -/
def emptyFS : FS := ⟨[], []⟩

/-! General helper lemmas. -/

theorem strMk_append (l₁ l₂ : List Char) : (⟨l₁⟩ : String) ++ ⟨l₂⟩ = ⟨l₁ ++ l₂⟩ := rfl

theorem strData_append (a b : String) : (a ++ b).data = a.data ++ b.data := rfl

theorem strAppend_assoc (a b c : String) : a ++ b ++ c = a ++ (b ++ c) := by
  cases a
  cases b
  cases c
  simp [strMk_append, List.append_assoc]

theorem strAppend_empty (a : String) : a ++ "" = a := by
  cases a
  show (⟨_⟩ : String) ++ ⟨[]⟩ = _
  simp [strMk_append]

theorem strNeNil_of_ne_empty (p : String) (h : p ≠ "") : p.data ≠ [] := by
  intro hd
  apply h
  cases p
  subst hd
  rfl

theorem pyRfind_eq_neg_one (c : Char) (l : List Char) (h : c ∉ l) : pyRfind c l = -1 := by
  induction l with
  | nil => rfl
  | cons x xs ih =>
    simp only [List.mem_cons, not_or] at h
    simp [pyRfind, ih h.2, Ne.symm h.1]

theorem pyRfind_append_last (c : Char) (l₁ l₂ : List Char) (h : c ∉ l₂) :
    pyRfind c (l₁ ++ c :: l₂) = l₁.length := by
  induction l₁ with
  | nil => simp [pyRfind, pyRfind_eq_neg_one c l₂ h]
  | cons x xs ih =>
    simp only [List.cons_append]
    simp only [pyRfind, ih]
    have h0 : (0:Int) ≤ xs.length := Int.ofNat_nonneg _
    simp only [if_pos h0, List.length_cons]
    push_cast
    ring

theorem pyRfind_ge_neg_one (c : Char) (l : List Char) : -1 ≤ pyRfind c l := by
  induction l with
  | nil => simp [pyRfind]
  | cons x xs ih =>
    simp only [pyRfind]
    split
    · omega
    · split <;> omega

/-- On a path of the form `stem ++ "." ++ e` whose stem is nonempty and
dot- and slash-free and whose extension part is dot- and slash-free,
`splitext` splits exactly at that dot. -/
theorem splitext_ext_replace (stem e : String)
    (hs : ∀ c ∈ stem.data, c ≠ '.' ∧ c ≠ '/') (hne : stem ≠ "")
    (he : ∀ c ∈ e.data, c ≠ '.' ∧ c ≠ '/') :
    splitext (stem ++ "." ++ e) = (stem, "." ++ e) := by
  have hdata : (stem ++ "." ++ e).data = stem.data ++ '.' :: e.data := by
    simp [strData_append]
  have hsep : pyRfind '/' (stem.data ++ '.' :: e.data) = -1 := by
    apply pyRfind_eq_neg_one
    intro hmem
    rcases List.mem_append.mp hmem with h | h
    · exact (hs _ h).2 rfl
    · rcases List.mem_cons.mp h with h | h
      · exact absurd h (by decide)
      · exact (he _ h).2 rfl
  have hdot : pyRfind '.' (stem.data ++ '.' :: e.data) = stem.data.length :=
    pyRfind_append_last '.' _ _ (fun hm => (he _ hm).1 rfl)
  have hnil : stem.data ≠ [] := strNeNil_of_ne_empty stem hne
  obtain ⟨c, rest, hcr⟩ : ∃ c rest, stem.data = c :: rest := by
    cases hsd : stem.data with
    | nil => exact absurd hsd hnil
    | cons c rest => exact ⟨c, rest, rfl⟩
  rw [splitext, hdata, hsep, hdot]
  have hlt : (-1 : Int) < stem.data.length := by
    have : (0:Int) ≤ stem.data.length := Int.ofNat_nonneg _
    omega
  rw [if_pos hlt]
  have hdrop : (-1 + 1 : Int).toNat = 0 := by decide
  have htoNat : ((stem.data.length : Int) - (-1 + 1)).toNat = stem.data.length := by omega
  rw [hdrop, htoNat]
  simp only [List.drop_zero]
  have htake : (stem.data ++ '.' :: e.data).take stem.data.length = stem.data :=
    List.take_left _ _
  have hmem : c ∈ stem.data := by rw [hcr]; exact List.mem_cons_self c rest
  have hall : ((stem.data ++ '.' :: e.data).take stem.data.length).all
      (fun c => decide (c = '.')) = false := by
    rw [htake, List.all_eq_false]
    exact ⟨c, hmem, by simpa using (hs c hmem).1⟩
  simp only [hall, Bool.false_eq_true, if_false]
  have htoNat2 : ((stem.data.length : Int)).toNat = stem.data.length := Int.toNat_natCast _
  have hdrop2 : (stem.data ++ '.' :: e.data).drop stem.data.length = '.' :: e.data :=
    List.drop_left _ _
  rw [htoNat2, htake, hdrop2]
  rfl

/-- The root returned by `splitext` is empty only for the empty path. -/
theorem splitext_fst_ne_empty (p : String) (h : p ≠ "") : (splitext p).1 ≠ "" := by
  have hl : p.data ≠ [] := strNeNil_of_ne_empty p h
  simp only [splitext]
  split
  case isTrue hlt =>
    split
    case isTrue => exact h
    case isFalse hall =>
      simp only []
      intro he
      have htake : (p.data.take (pyRfind '.' p.data).toNat) = [] := congrArg String.data he
      rcases List.take_eq_nil_iff.mp htake with h0 | h0
      · have hd0 : pyRfind '.' p.data ≤ 0 := by omega
        have hsge : -1 ≤ pyRfind '/' p.data := pyRfind_ge_neg_one _ _
        have hdot : pyRfind '.' p.data = 0 := by omega
        have hsep : pyRfind '/' p.data = -1 := by omega
        apply hall
        rw [hsep, hdot]
        simp
      · exact hl h0
  case isFalse => exact h

/-- With `exist_ok = true` the directory creation of a nonempty path
always succeeds. -/
theorem makedirs_exist_ok (d : String) (fs : FS) (hd : d ≠ "") :
    makedirs d true fs =
      .ok { fs with dirs := if fs.dirs.contains d then fs.dirs else d :: fs.dirs } := by
  simp [makedirs, hd]

/-- With an explicit requested path and a nonempty input path,
`output_file` always returns the requested path. -/
theorem output_file_some_snd (fp out ext : String) (fs : FS) (h : fp ≠ "") :
    (output_file (some fp) (some out) ext fs).2 = .ok out := by
  simp only [output_file]
  by_cases hc : (splitPath out).1 = ""
  · simp only [if_pos hc, makedirs_exist_ok _ _ (splitext_fst_ne_empty fp h)]
  · simp only [if_neg hc, makedirs_exist_ok _ _ hc]

theorem pyInt_eq_floor (q : ℚ) (h : 0 ≤ q) : pyInt q = ⌊q⌋ := by
  rw [pyInt, Rat.floor_def]
  exact Int.tdiv_eq_ediv (Rat.num_nonneg.mpr h) (Int.ofNat_nonneg _)

set_option maxRecDepth 4000 in
theorem twoDigit_pad : ∀ n : ℕ, n < 100 → twoDigitStr (pyFormatZeroPad 2 (n : ℤ)) = true := by
  decide

set_option maxRecDepth 40000 in
theorem threeDigit_pad : ∀ n : ℕ, n < 1000 → threeDigitStr (pyFormatZeroPad 3 (n : ℤ)) = true := by
  decide

theorem twoDigit_pad_int (n : ℤ) (h0 : 0 ≤ n) (h1 : n < 100) :
    twoDigitStr (pyFormatZeroPad 2 n) = true := by
  rw [← Int.toNat_of_nonneg h0]
  exact twoDigit_pad n.toNat ((Int.toNat_lt h0).mpr h1)

theorem threeDigit_pad_int (n : ℤ) (h0 : 0 ≤ n) (h1 : n < 1000) :
    threeDigitStr (pyFormatZeroPad 3 n) = true := by
  rw [← Int.toNat_of_nonneg h0]
  exact threeDigit_pad n.toNat ((Int.toNat_lt h0).mpr h1)

theorem srtPattern_build (a b c d : String) (ha : twoDigitStr a = true) (hb : twoDigitStr b = true)
    (hc : twoDigitStr c = true) (hd : threeDigitStr d = true) :
    matchesSrtPattern (a ++ ":" ++ b ++ ":" ++ c ++ "," ++ d) = true := by
  obtain ⟨la⟩ := a
  obtain ⟨lb⟩ := b
  obtain ⟨lc⟩ := c
  obtain ⟨ld⟩ := d
  rcases la with _ | ⟨a₁, _ | ⟨a₂, _ | _⟩⟩ <;> simp [twoDigitStr] at ha
  rcases lb with _ | ⟨b₁, _ | ⟨b₂, _ | _⟩⟩ <;> simp [twoDigitStr] at hb
  rcases lc with _ | ⟨c₁, _ | ⟨c₂, _ | _⟩⟩ <;> simp [twoDigitStr] at hc
  rcases ld with _ | ⟨d₁, _ | ⟨d₂, _ | ⟨d₃, _ | _⟩⟩⟩ <;> simp [threeDigitStr] at hd
  show matchesSrtPattern ⟨[a₁, a₂, ':', b₁, b₂, ':', c₁, c₂, ',', d₁, d₂, d₃]⟩ = true
  simp [matchesSrtPattern, ha.1, ha.2, hb.1, hb.2, hc.1, hc.2, hd.1.1, hd.1.2, hd.2]

/-- The fractional part scaled by 1000, written without the irreducible
rational arithmetic, for concrete evaluation. -/
theorem sub_intCast_mul_1000 (s : ℚ) (t : ℤ) :
    (s - (t : ℚ)) * 1000 = Rat.divInt ((s.num - t * s.den) * 1000) s.den := by
  have h0 : ((s.den : ℕ) : ℚ) ≠ 0 := Nat.cast_ne_zero.mpr s.den_nz
  have h := Rat.num_div_den s
  rw [div_eq_iff h0] at h
  rw [Rat.divInt_eq_div]
  push_cast
  rw [eq_div_iff h0, h]
  ring

/-- `format_timedelta` with its millisecond computation in evaluable form. -/
theorem format_timedelta_eval (s : ℚ) :
    format_timedelta s =
      pyFormatZeroPad 2 ((pyInt s).fdiv 3600) ++ ":" ++
        pyFormatZeroPad 2 (((pyInt s).fmod 3600).fdiv 60) ++ ":" ++
        pyFormatZeroPad 2 ((pyInt s).fmod 60) ++ "," ++
        pyFormatZeroPad 3 (pyInt (Rat.divInt ((s.num - pyInt s * s.den) * 1000) s.den)) := by
  rw [format_timedelta, sub_intCast_mul_1000]

theorem format_timedelta_zero : format_timedelta 0 = "00:00:00,000" := by
  have h : (0 : ℚ) = Rat.divInt 0 1 := by rw [Rat.divInt_eq_div]; norm_num
  rw [h, format_timedelta_eval]
  decide

theorem format_timedelta_one : format_timedelta 1 = "00:00:01,000" := by
  have h : (1 : ℚ) = Rat.divInt 1 1 := by rw [Rat.divInt_eq_div]; norm_num
  rw [h, format_timedelta_eval]
  decide

theorem format_timedelta_five_halves : format_timedelta 2.5 = "00:00:02,500" := by
  have h : (2.5 : ℚ) = Rat.divInt 5 2 := by rw [Rat.divInt_eq_div]; norm_num
  rw [h, format_timedelta_eval]
  decide

/-- For hours below 100 every field of the timestamp is in range and the
rendered string has the claimed 12-character shape. -/
theorem format_timedelta_pattern (s : ℚ) (h0 : 0 ≤ s) (h1 : s < 360000) :
    matchesSrtPattern (format_timedelta s) = true := by
  rw [format_timedelta]
  rw [pyInt_eq_floor s h0, Int.self_sub_floor]
  have hms := pyInt_eq_floor (Int.fract s * 1000)
    (mul_nonneg (Int.fract_nonneg s) (by norm_num))
  rw [hms]
  have hts0 : 0 ≤ ⌊s⌋ := Int.floor_nonneg.mpr h0
  have hts1 : ⌊s⌋ < 360000 := by
    rw [Int.floor_lt]
    exact_mod_cast h1
  rw [Int.fdiv_eq_ediv _ (by norm_num : (0:ℤ) ≤ 3600),
      Int.fmod_eq_emod _ (by norm_num : (0:ℤ) ≤ 3600),
      Int.fdiv_eq_ediv _ (by norm_num : (0:ℤ) ≤ 60),
      Int.fmod_eq_emod _ (by norm_num : (0:ℤ) ≤ 60)]
  apply srtPattern_build
  · exact twoDigit_pad_int _ (Int.ediv_nonneg hts0 (by norm_num))
      ((Int.ediv_lt_iff_lt_mul (by norm_num)).mpr (by linarith))
  · exact twoDigit_pad_int _
      (Int.ediv_nonneg (Int.emod_nonneg _ (by norm_num)) (by norm_num))
      ((Int.ediv_lt_iff_lt_mul (by norm_num)).mpr
        (by have : ⌊s⌋ % 3600 < 3600 := Int.emod_lt_of_pos _ (by norm_num); linarith))
  · exact twoDigit_pad_int _ (Int.emod_nonneg _ (by norm_num))
      (by have : ⌊s⌋ % 60 < 60 := Int.emod_lt_of_pos _ (by norm_num); linarith)
  · apply threeDigit_pad_int _ (Int.floor_nonneg.mpr
      (mul_nonneg (Int.fract_nonneg s) (by norm_num)))
    rw [Int.floor_lt]
    push_cast
    have := Int.fract_lt_one s
    nlinarith [Int.fract_nonneg s]

theorem replaceTwo_step (p₁ p₂ r₁ r₂ c : Char) (l : List Char)
    (h : ¬(c = p₁ ∧ l.head? = some p₂)) :
    replaceTwo p₁ p₂ r₁ r₂ (c :: l) = c :: replaceTwo p₁ p₂ r₁ r₂ l := by
  cases l with
  | nil => simp [replaceTwo]
  | cons c₂ rest =>
    have h2 : ¬(c = p₁ ∧ c₂ = p₂) := by simpa using h
    simp [replaceTwo, h2]

theorem replaceTwo_pos (p₁ p₂ r₁ r₂ : Char) (rest : List Char) :
    replaceTwo p₁ p₂ r₁ r₂ (p₁ :: p₂ :: rest) = r₁ :: r₂ :: replaceTwo p₁ p₂ r₁ r₂ rest := by
  simp [replaceTwo]

/-- When the replacement keeps the first pattern character, the head of
the scanned list is preserved. -/
theorem replaceTwo_cons_exists (p₁ p₂ r₂ c : Char) (l : List Char) :
    ∃ Y, replaceTwo p₁ p₂ p₁ r₂ (c :: l) = c :: Y := by
  cases l with
  | nil => exact ⟨[], by simp [replaceTwo]⟩
  | cons c₂ rest =>
    by_cases h : c = p₁ ∧ c₂ = p₂
    · refine ⟨r₂ :: replaceTwo p₁ p₂ p₁ r₂ rest, ?_⟩
      rw [h.1, h.2, replaceTwo_pos]
    · exact ⟨replaceTwo p₁ p₂ p₁ r₂ (c₂ :: rest), by simp [replaceTwo, h]⟩

/-- The three chained single-pattern replacements of line 82 coincide
with one simultaneous left-to-right replacement pass. -/
theorem chainBreaks_eq_simulBreaks (l : List Char) :
    replaceTwo '!' ' ' '!' '\n'
      (replaceTwo '?' ' ' '?' '\n'
        (replaceTwo '.' ' ' '.' '\n' l)) = simulBreaks l := by
  suffices H : ∀ n l, List.length l ≤ n →
      replaceTwo '!' ' ' '!' '\n'
        (replaceTwo '?' ' ' '?' '\n'
          (replaceTwo '.' ' ' '.' '\n' l)) = simulBreaks l from
    H l.length l le_rfl
  intro n
  induction n with
  | zero =>
    intro l hl
    have : l = [] := by
      cases l with
      | nil => rfl
      | cons a b => simp at hl
    subst this
    rfl
  | succ n ih =>
    intro l hl
    match l with
    | [] => rfl
    | [c] => simp [replaceTwo, simulBreaks]
    | c₁ :: c₂ :: rest =>
      have hr : rest.length ≤ n := by
        simp only [List.length_cons] at hl
        omega
      have hr2 : (c₂ :: rest).length ≤ n := by
        simp only [List.length_cons] at hl ⊢
        omega
      by_cases hA : (c₁ = '.' ∨ c₁ = '?' ∨ c₁ = '!') ∧ c₂ = ' '
      · obtain ⟨hA1, hA2⟩ := hA
        subst hA2
        rcases hA1 with h1 | h1 | h1 <;> subst h1
        · rw [replaceTwo_pos]
          rw [replaceTwo_step '?' ' ' '?' '\n' '.' _ (by simp)]
          rw [replaceTwo_step '?' ' ' '?' '\n' '\n' _ (by simp)]
          rw [replaceTwo_step '!' ' ' '!' '\n' '.' _ (by simp)]
          rw [replaceTwo_step '!' ' ' '!' '\n' '\n' _ (by simp)]
          rw [ih rest hr]
          simp [simulBreaks]
        · rw [replaceTwo_step '.' ' ' '.' '\n' '?' _ (by simp)]
          rw [replaceTwo_step '.' ' ' '.' '\n' ' ' _ (by simp)]
          rw [replaceTwo_pos]
          rw [replaceTwo_step '!' ' ' '!' '\n' '?' _ (by simp)]
          rw [replaceTwo_step '!' ' ' '!' '\n' '\n' _ (by simp)]
          rw [ih rest hr]
          simp [simulBreaks]
        · rw [replaceTwo_step '.' ' ' '.' '\n' '!' _ (by simp)]
          rw [replaceTwo_step '.' ' ' '.' '\n' ' ' _ (by simp)]
          rw [replaceTwo_step '?' ' ' '?' '\n' '!' _ (by simp)]
          rw [replaceTwo_step '?' ' ' '?' '\n' ' ' _ (by simp)]
          rw [replaceTwo_pos]
          rw [ih rest hr]
          simp [simulBreaks]
      · obtain ⟨Ydot, hYdot⟩ := replaceTwo_cons_exists '.' ' ' '\n' c₂ rest
        have hstep1 : replaceTwo '.' ' ' '.' '\n' (c₁ :: c₂ :: rest) =
            c₁ :: replaceTwo '.' ' ' '.' '\n' (c₂ :: rest) := by
          apply replaceTwo_step
          intro ⟨he, hh⟩
          exact hA ⟨Or.inl he, by simpa using hh⟩
        rw [hstep1, hYdot]
        obtain ⟨Yq, hYq⟩ := replaceTwo_cons_exists '?' ' ' '\n' c₂ Ydot
        have hstep2 : replaceTwo '?' ' ' '?' '\n' (c₁ :: c₂ :: Ydot) =
            c₁ :: replaceTwo '?' ' ' '?' '\n' (c₂ :: Ydot) := by
          apply replaceTwo_step
          intro ⟨he, hh⟩
          exact hA ⟨Or.inr (Or.inl he), by simpa using hh⟩
        rw [hstep2, hYq]
        have hstep3 : replaceTwo '!' ' ' '!' '\n' (c₁ :: c₂ :: Yq) =
            c₁ :: replaceTwo '!' ' ' '!' '\n' (c₂ :: Yq) := by
          apply replaceTwo_step
          intro ⟨he, hh⟩
          exact hA ⟨Or.inr (Or.inr he), by simpa using hh⟩
        rw [hstep3, ← hYq, ← hYdot, ih (c₂ :: rest) hr2]
        have : simulBreaks (c₁ :: c₂ :: rest) = c₁ :: simulBreaks (c₂ :: rest) := by
          simp [simulBreaks, hA]
        rw [this]

/-- Unrolling the enumerate-and-accumulate loop of `generate_srt`. -/
theorem generate_srt_fold (segs : List Segment) : ∀ (k : ℕ) (acc : String),
    (List.enumFrom k segs).foldl
      (fun srt_content p =>
        srt_content ++
          (toString (p.1 + 1) ++ "\n" ++ format_timedelta p.2.start ++ " --> " ++
            format_timedelta p.2.stop ++ "\n" ++ pyStrip p.2.text ++ "\n\n"))
      acc = acc ++ srtSpecFrom (k + 1) segs := by
  induction segs with
  | nil => intro k acc; simp [List.enumFrom, srtSpecFrom, strAppend_empty]
  | cons seg rest ih =>
    intro k acc
    simp only [List.enumFrom, List.foldl_cons, srtSpecFrom]
    rw [ih (k + 1)]
    simp only [strAppend_assoc]

/-- The loop of `generate_srt` renders exactly the spec-side blocks,
numbered from 1. -/
theorem generate_srt_eq_spec (t : Transcription) :
    generate_srt t = srtSpecFrom 1 t.segments := by
  rw [generate_srt]
  show (List.enumFrom 0 t.segments).foldl _ "" = _
  rw [generate_srt_fold t.segments 0 ""]
  cases hs : srtSpecFrom (0 + 1) t.segments
  show ("" : String) ++ ⟨_⟩ = _
  show (⟨[]⟩ : String) ++ ⟨_⟩ = _
  simp [strMk_append]

/-- The branch structure of `transcribe`: either it fails with the
session untouched, or it succeeds. -/
theorem transcribe_cases (env : Env) (st : Session) (p : String) :
    (transcribe env st p).1 = st ∨ (transcribe env st p).2 = .ok () := by
  simp only [transcribe]
  split
  · split
    · left; rfl
    · split
      · left; rfl
      · right; rfl
  · left; rfl

/-! Claim theorems. -/

/-- C1 (counterexample): with a prober that finds no matching stream of
either kind, `is_video_file` returns `False`, but `is_audio_file` raises
`IndexError` instead of returning `False` — the two checks do not share
the same defensive behavior. -/
theorem C1_counterexample :
    is_video_file envNoStreams "file.xyz" = .ok (some false) ∧
    is_audio_file envNoStreams "file.xyz" = .error .indexError ∧
    (Except.error .indexError : Except Err Bool) ≠ .ok false := by
  refine ⟨rfl, rfl, ?_⟩
  simp

/-- C1 (amended): on a query returning no matching stream,
`is_video_file` returns `False` as a normal negative result, while
`is_audio_file` raises an uncaught `IndexError`; the defensive behavior
of the two checks differs on stream absence. -/
theorem C1_theorem (env : Env) (p : String) :
    (env.probeVideo p = .ok [] → is_video_file env p = .ok (some false)) ∧
    (env.probeAudio p = .ok [] → is_audio_file env p = .error .indexError) := by
  constructor
  · intro h
    simp [is_video_file, h]
  · intro h
    simp [is_audio_file, h]

/-- C1 (witness): the amended claim at a concrete environment. -/
theorem C1_witness :
    is_video_file envNoStreams "clip.avi" = .ok (some false) ∧
    is_audio_file envNoStreams "clip.avi" = .error .indexError :=
  ⟨(C1_theorem envNoStreams "clip.avi").1 rfl, (C1_theorem envNoStreams "clip.avi").2 rfl⟩

/-- C2 (counterexample): on a file with neither a video nor an audio
stream, `extract_audio_from_file` raises `IndexError` from the audio
check, not the `ValueError` carrying the unsupported-file-type message. -/
theorem C2_counterexample :
    extract_audio_from_file envNoStreams "file.xyz" = .error .indexError ∧
    Err.indexError ≠
      Err.valueError "Unsupported file type. Please provide a video or audio file." := by
  refine ⟨rfl, ?_⟩
  decide

/-- C2 (amended): when the video check is falsy and the audio probe
returns an empty stream list, `extract_audio_from_file` — and hence
`transcribe` on an existing path — aborts with `IndexError` before
recognition; the unsupported-file-type `ValueError` is not reached. -/
theorem C2_theorem (env : Env) (st : Session) (p : String) (v : Option Bool)
    (hv : is_video_file env p = .ok v) (hvt : v ≠ some true)
    (ha : env.probeAudio p = .ok []) :
    extract_audio_from_file env p = .error .indexError ∧
    (env.pathExists p = true → transcribe env st p = (st, .error .indexError)) := by
  have hex : extract_audio_from_file env p = .error .indexError := by
    simp [extract_audio_from_file, hv, hvt, is_audio_file, ha]
  refine ⟨hex, fun hpe => ?_⟩
  simp [transcribe, hpe, hex]

/-- C2 (witness): the amended claim at a concrete environment. -/
theorem C2_witness :
    extract_audio_from_file envNoStreams "file.xyz" = .error .indexError ∧
    (envNoStreams.pathExists "file.xyz" = true →
      transcribe envNoStreams emptySession "file.xyz" = (emptySession, .error .indexError)) :=
  C2_theorem envNoStreams emptySession "file.xyz" (some false) rfl (by decide) rfl

/-- C3 (counterexample): at 100 hours the hours field takes three
digits, so the rendered timestamp does not match
`\d{2}:\d{2}:\d{2},\d{3}`. -/
theorem C3_counterexample :
    matchesSrtPattern (format_timedelta 360000) = false ∧
    format_timedelta 360000 = "100:00:00,000" := by
  have h : (360000 : ℚ) = Rat.divInt 360000 1 := by
    rw [Rat.divInt_eq_div]
    norm_num
  constructor
  · rw [h, format_timedelta_eval]
    decide
  · rw [h, format_timedelta_eval]
    decide

/-- C3 (amended): for every non-negative seconds value below 360000
(i.e. hours below 100) the rendered timestamp matches
`\d{2}:\d{2}:\d{2},\d{3}`; hours are not wrapped to 24h, and beyond 100
hours the hours field simply grows past two digits; in particular
`format_timedelta 3725.25 = "01:02:05,250"`. -/
theorem C3_theorem :
    (∀ s : ℚ, 0 ≤ s → s < 360000 → matchesSrtPattern (format_timedelta s) = true) ∧
    format_timedelta 3725.25 = "01:02:05,250" := by
  constructor
  · exact format_timedelta_pattern
  · have h : (3725.25 : ℚ) = Rat.divInt 14901 4 := by
      rw [Rat.divInt_eq_div]
      norm_num
    rw [h, format_timedelta_eval]
    decide

/-- C3 (witness): the pattern property at a concrete input. -/
theorem C3_witness : matchesSrtPattern (format_timedelta 0) = true :=
  C3_theorem.1 0 (by decide) (by decide)

/-- C4: `generate_srt` renders exactly the concatenation, in segment
order, of the numbered blocks (cues numbered from 1, segment text
stripped), and on the two example segments yields the expected SRT
string. -/
theorem C4_theorem :
    (∀ t : Transcription, generate_srt t = srtSpecFrom 1 t.segments) ∧
    generate_srt ⟨"", [⟨0, 1, "Hello"⟩, ⟨1, 2.5, " world "⟩]⟩ =
      "1\n00:00:00,000 --> 00:00:01,000\nHello\n\n2\n00:00:01,000 --> 00:00:02,500\nworld\n\n" := by
  refine ⟨generate_srt_eq_spec, ?_⟩
  rw [generate_srt_eq_spec]
  simp only [srtSpecFrom]
  rw [format_timedelta_zero, format_timedelta_one, format_timedelta_five_halves]
  decide

/-- C5: the text renderer replaces every occurrence of `". "`, `"? "`,
`"! "` by punctuation plus newline as one simultaneous substitution;
`"Hi. Bye!"` becomes `"Hi.\nBye!"` and `"Hi."` is left unchanged. -/
theorem C5_theorem :
    (∀ t : String, save_transcription_text t = ⟨simulBreaks t.data⟩) ∧
    save_transcription_text "Hi. Bye!" = "Hi.\nBye!" ∧
    save_transcription_text "Hi." = "Hi." := by
  refine ⟨fun t => congrArg String.mk (chainBreaks_eq_simulBreaks t.data), ?_, ?_⟩
  · apply String.ext
    simp [save_transcription_text, replaceTwo]
  · apply String.ext
    simp [save_transcription_text, replaceTwo]

/-- C6: with no requested output path, `output_file` returns the input
path with its extension replaced by the target extension, and touches no
directory. -/
theorem C6_theorem (stem e ext : String) (fs : FS) (hne : stem ≠ "")
    (hs : ∀ c ∈ stem.data, c ≠ '.' ∧ c ≠ '/') (he : ∀ c ∈ e.data, c ≠ '.' ∧ c ≠ '/') :
    output_file (some (stem ++ "." ++ e)) none ext fs = (fs, .ok (stem ++ ext)) := by
  simp [output_file, splitext_ext_replace stem e hs hne he]

/-- C6 (witness): the spec example `output_file("video.mp4", None,
".srt") = "video.srt"`. -/
theorem C6_witness :
    output_file (some ("video" ++ "." ++ "mp4")) none ".srt" emptyFS =
      (emptyFS, .ok ("video" ++ ".srt")) :=
  C6_theorem "video" "mp4" ".srt" emptyFS (by decide) (by decide) (by decide)

/-- C7: with a requested output path present, `output_file` returns that
path unchanged (the substituted directory is only created, never joined
into the result), and a second identical call also returns it with no
error from the repeated directory creation. -/
theorem C7_theorem (fp out ext : String) (fs : FS) (h : fp ≠ "") :
    (output_file (some fp) (some out) ext fs).2 = .ok out ∧
    (output_file (some fp) (some out) ext
      ((output_file (some fp) (some out) ext fs).1)).2 = .ok out :=
  ⟨output_file_some_snd fp out ext fs h, output_file_some_snd fp out ext _ h⟩

/-- C7 (witness): a bare requested filename is returned unchanged twice,
although the directory substituted from the input path is created. -/
theorem C7_witness :
    (output_file (some "video.mp4") (some "transcript.srt") ".srt" emptyFS).2 =
      .ok "transcript.srt" ∧
    (output_file (some "video.mp4") (some "transcript.srt") ".srt"
      ((output_file (some "video.mp4") (some "transcript.srt") ".srt" emptyFS).1)).2 =
      .ok "transcript.srt" :=
  C7_theorem "video.mp4" "transcript.srt" ".srt" emptyFS (by decide)

/-- C8: every failing `transcribe` call — nonexistent path, unsupported
type, prober or recognizer failure — leaves the session fields exactly
as they were, and a nonexistent path fails with the assertion before any
external call (the result does not depend on the prober or recognizer). -/
theorem C8_theorem (env : Env) (st : Session) (p : String) :
    (∀ e : Err, (transcribe env st p).2 = .error e → (transcribe env st p).1 = st) ∧
    (env.pathExists p = false →
      transcribe env st p = (st, .error (.assertionError ("File " ++ p ++ " not found.")))) := by
  constructor
  · intro e he
    rcases transcribe_cases env st p with h | h
    · exact h
    · rw [h] at he
      exact absurd he (by simp)
  · intro h
    simp [transcribe, h]

/-- C8 (witness): the state-preservation claim at a concrete failing
call. -/
theorem C8_witness :
    (transcribe envNothingExists emptySession "a.mp4").1 = emptySession ∧
    transcribe envNothingExists emptySession "a.mp4" =
      (emptySession, .error (.assertionError ("File " ++ "a.mp4" ++ " not found."))) :=
  ⟨(C8_theorem envNothingExists emptySession "a.mp4").1
      (.assertionError ("File " ++ "a.mp4" ++ " not found.")) rfl,
    (C8_theorem envNothingExists emptySession "a.mp4").2 rfl⟩

/-- C9: with no stored transcription, both renderers fail with the
no-transcription `ValueError`, before any path resolution or write: the
filesystem state is returned untouched for every requested output. -/
theorem C9_theorem (st : Session) (req : Option String) (fs : FS)
    (h : st.transcription = none) :
    save_transcription st req fs =
      (fs, .error (.valueError "No transcription available. Please transcribe audio first.")) ∧
    save_subtitles st req fs =
      (fs, .error (.valueError "No transcription available. Please transcribe audio first.")) := by
  constructor
  · simp [save_transcription, h]
  · simp [save_subtitles, h]

/-- C9 (witness): the renderer precondition at the fresh session. -/
theorem C9_witness :
    save_transcription emptySession none emptyFS =
      (emptyFS, .error (.valueError "No transcription available. Please transcribe audio first.")) ∧
    save_subtitles emptySession none emptyFS =
      (emptyFS, .error (.valueError "No transcription available. Please transcribe audio first.")) :=
  C9_theorem emptySession none emptyFS rfl

/-- C10: when the video-filtered probe returns a first stream whose
codec type is not `"video"`, control falls off the end of
`is_video_file` and the Python function returns `None` rather than a
boolean. -/
theorem C10_theorem (env : Env) (p : String) (m : MediaStream) (rest : List MediaStream)
    (hp : env.probeVideo p = .ok (m :: rest)) (hm : m.codec_type ≠ "video") :
    is_video_file env p = .ok none := by
  simp [is_video_file, hp, hm]

/-- C10 (witness): the `None` fall-through at a concrete environment. -/
theorem C10_witness : is_video_file envOddVideoProbe "clip.bin" = .ok none :=
  C10_theorem envOddVideoProbe "clip.bin" ⟨"audio"⟩ [] rfl (by decide)
